import Mathlib

/-!
# Invoice extractor UI: upload controller and result renderer

A shallow embedding of `src/invoice-extractor-ui/src/App.js`.

* JavaScript values reaching the component (the parsed response body and the
  fields of its line items) are modelled by `JSVal`.
* The component state (`useState` cells) together with the browser resources
  its handlers create (interval timers, the outstanding `axios.post` promise,
  the `setTimeout` of the success path) is the record `State`.
* Every handler and callback of `App` is a function on `State`.
* The JSX returned by `App` is the record `View`, computed by `render`.
-/

namespace InvoiceUI

/-! ## JavaScript values -/

/-- A JavaScript number: `NaN`, an infinity, or a finite value. -/
inductive JSNum where
  | nan
  | infinity (negative : Bool)
  | finite (q : ℚ)

/-- A JavaScript value as it can reach the component: `undefined` (a missing
property) or a value produced by parsing a JSON body. -/
inductive JSVal where
  | undefined
  | null
  | bool (b : Bool)
  | num (x : JSNum)
  | str (s : String)
  | arr (elems : List JSVal)
  | obj (props : List (String × JSVal))

/-- The exceptions the component can raise. `typeError` is the JavaScript
`TypeError`; `unsupportedCoercion` marks a numeric coercion of a string, array
or object operand, which the embedding does not evaluate. -/
inductive JSError where
  | typeError
  | unsupportedCoercion
  deriving DecidableEq, Repr

/-- The `length` of a JavaScript string counts UTF-16 code units. -/
def utf16Length (s : String) : Nat :=
  (s.toList.map (fun c => if c.toNat > 65535 then 2 else 1)).sum

/-- Property read `v.k`, for the property names the component reads (`data`,
`length` and the line-item fields). Reading a property of `undefined` or
`null` throws a `TypeError`; a missing property is `undefined`. -/
def getProp (v : JSVal) (k : String) : Except JSError JSVal :=
  match v with
  | .undefined => .error .typeError
  | .null => .error .typeError
  | .obj props => .ok ((props.lookup k).getD .undefined)
  | .arr elems =>
      if k = "length" then .ok (.num (.finite (elems.length : ℚ))) else .ok .undefined
  | .str s =>
      if k = "length" then .ok (.num (.finite (utf16Length s : ℚ))) else .ok .undefined
  | .bool _ => .ok .undefined
  | .num _ => .ok .undefined

/-- ToBoolean: the truthiness test behind `||`, `&&`, `!` and `?:`. -/
def toBoolean (v : JSVal) : Bool :=
  match v with
  | .undefined => false
  | .null => false
  | .bool b => b
  | .num .nan => false
  | .num (.infinity _) => true
  | .num (.finite q) => decide (q ≠ 0)
  | .str s => decide (s ≠ "")
  | .arr _ => true
  | .obj _ => true

/-- The expression `a || b`. -/
def jsOr (a b : JSVal) : JSVal :=
  if toBoolean a then a else b

/-- The expression `v === "lit"` for a string literal: strict equality never
coerces, so it holds only for a string value with the same contents. -/
def strictEqStr (v : JSVal) (lit : String) : Bool :=
  match v with
  | .str s => decide (s = lit)
  | _ => false

/-- The expression `v > 0`. `undefined` converts to `NaN`, `null` to `0`,
`true` to `1` and `false` to `0`; any comparison with `NaN` is false. -/
def gtZero (v : JSVal) : Except JSError Bool :=
  match v with
  | .undefined => .ok false
  | .null => .ok false
  | .bool b => .ok b
  | .num .nan => .ok false
  | .num (.infinity negative) => .ok (!negative)
  | .num (.finite q) => .ok (decide (0 < q))
  | .str _ => .error .unsupportedCoercion
  | .arr _ => .error .unsupportedCoercion
  | .obj _ => .error .unsupportedCoercion

/-! ## Result renderer -/

/-- The content of a table cell or chip label: either the value of a plain
expression, or a template literal with one substitution, kept as the literal
text before the hole, the substituted value, and the literal text after it. -/
inductive Child where
  | val (v : JSVal)
  | template (before : String) (v : JSVal) (after : String)

/-- The three icons of the status chip. -/
inductive Icon where
  | CheckCircleIcon
  | CloudUploadIcon
  | ErrorIcon
  deriving DecidableEq, Repr

/-- The three colours of the status chip. -/
inductive ChipColor where
  | success
  | warning
  | error
  deriving DecidableEq, Repr

/-- The `icon` property of the status chip:
`status === "approved" ? <CheckCircleIcon/> : status === "reviewing" ? <CloudUploadIcon/> : <ErrorIcon/>`. -/
def statusIcon (status : JSVal) : Icon :=
  if strictEqStr status "approved" then .CheckCircleIcon
  else if strictEqStr status "reviewing" then .CloudUploadIcon
  else .ErrorIcon

/-- The `color` property of the status chip:
`status === "reviewing" ? "warning" : status === "approved" ? "success" : "error"`. -/
def statusColor (status : JSVal) : ChipColor :=
  if strictEqStr status "reviewing" then .warning
  else if strictEqStr status "approved" then .success
  else .error

/-- The status category an icon stands for. -/
def Icon.category : Icon → ChipColor
  | .CheckCircleIcon => .success
  | .CloudUploadIcon => .warning
  | .ErrorIcon => .error

/-- The cell `x || '-'` and its siblings `x || 'N/A'`, `x || 'Unknown'`,
`x || '1'`, `x || 'pending'`. -/
def orCell (x : JSVal) (placeholder : String) : Child :=
  .val (jsOr x (.str placeholder))

/-- The GST cell: `gst ? [template gst "%"] : '-'`. -/
def gstCell (gst : JSVal) : Child :=
  if toBoolean gst then .template "" gst "%" else .val (.str "-")

/-- The rate and MRP cells: `x ? [template "₹" x] : '-'`. -/
def currencyCell (x : JSVal) : Child :=
  if toBoolean x then .template "₹" x "" else .val (.str "-")

/-- One `<TableRow>` of the results table. -/
structure Row where
  key : Nat
  title : Child
  typeLabel : Child
  hsn : Child
  gst : Child
  qty : Child
  rate : Child
  mrp : Child
  page : Child
  statusIcon : Icon
  statusLabel : Child
  statusColor : ChipColor

/-- The body of the callback passed to `data.map`: `(row, idx) => <TableRow ...>`. -/
def renderRow (row : JSVal) (idx : Nat) : Except JSError Row := do
  let title ← getProp row "title"
  let type ← getProp row "type"
  let hsn ← getProp row "section_2_transaction_hsn"
  let gst ← getProp row "section_2_transaction_gst"
  let qty ← getProp row "section_2_transaction_qty"
  let rate ← getProp row "section_2_transaction_rate"
  let mrp ← getProp row "section_2_transaction_mrp"
  let page ← getProp row "page_number"
  let status ← getProp row "status"
  pure {
    key := idx
    title := orCell title "N/A"
    typeLabel := orCell type "Unknown"
    hsn := orCell hsn "-"
    gst := gstCell gst
    qty := orCell qty "-"
    rate := currencyCell rate
    mrp := currencyCell mrp
    page := orCell page "1"
    statusIcon := statusIcon status
    statusLabel := orCell status "pending"
    statusColor := statusColor status }

/-- The loop of `Array.prototype.map` with callback `renderRow`: elements are
visited from index `idx` upwards and an exception of the callback aborts it. -/
def mapRowsFrom : List JSVal → Nat → Except JSError (List Row)
  | [], _ => .ok []
  | row :: rest, idx =>
      match renderRow row idx with
      | .error e => .error e
      | .ok r =>
          match mapRowsFrom rest (idx + 1) with
          | .error e => .error e
          | .ok rs => .ok (r :: rs)

/-- The call `data.map((row, idx) => ...)`: only an array has a `map` method;
on any other value the call throws a `TypeError`. -/
def mapRows (data : JSVal) : Except JSError (List Row) :=
  match data with
  | .arr elems => mapRowsFrom elems 0
  | _ => .error .typeError

/-! ## Upload controller -/

/-- A file handle picked in the file input; the component reads only its name. -/
structure File where
  name : String
  deriving DecidableEq, Repr

/-- An outstanding `axios.post`, i.e. one suspended invocation of
`handleUpload`. `progressInterval` is the interval id held by that
invocation's closure and `file` the file it appended to the form data. -/
structure Request where
  progressInterval : Nat
  file : File
  deriving DecidableEq, Repr

/-- A scheduled `setTimeout` callback of the success path; `body` is the
`res.data` captured by its closure. -/
structure Timeout where
  id : Nat
  body : JSVal

/-- The `useState` cells of `App`, followed by the browser resources created
by its handlers: the live `setInterval` ids, the next timer id to be handed
out, the outstanding requests and the scheduled timeouts. -/
structure State where
  file : Option File
  data : JSVal
  loading : Bool
  error : Option String
  uploadProgress : ℚ
  showTable : Bool
  intervals : List Nat
  nextTimerId : Nat
  requests : List Request
  timeouts : List Timeout

/-- The state of a freshly mounted component: `useState(null)`, `useState([])`,
`useState(false)`, `useState(null)`, `useState(0)`, `useState(false)`. -/
def State.init : State where
  file := none
  data := .arr []
  loading := false
  error := none
  uploadProgress := 0
  showTable := false
  intervals := []
  nextTimerId := 1
  requests := []
  timeouts := []

/-- The message set when submitting without a file. -/
def noFileMessage : String := "Please select a PDF file to upload."

/-- The message set by the `catch` branch. -/
def uploadFailedMessage : String := "Upload failed. Please try again."

/-- The handler `handleFileChange`: `setFile(e.target.files[0]); setError(null)`.
The argument is `e.target.files[0]`, which is `undefined` (here `none`) when
the picker is dismissed without a choice. -/
def handleFileChange (picked : Option File) (s : State) : State :=
  { s with file := picked, error := none }

/-- The handler `handleUpload`, up to its `await`. Without a file it only sets
the error message. Otherwise it sets the loading flag, clears the error, resets
the progress, starts the progress interval and issues the request. -/
def handleUpload (s : State) : State :=
  match s.file with
  | none => { s with error := some noFileMessage }
  | some f =>
      { s with
        loading := true
        error := none
        uploadProgress := 0
        intervals := s.nextTimerId :: s.intervals
        nextTimerId := s.nextTimerId + 1
        requests := { progressInterval := s.nextTimerId, file := f } :: s.requests }

/-- One firing of the interval callback of timer `t`, where `rnd` is the value
returned by `Math.random()`:
`setUploadProgress(prev => [if prev >= 90: clearInterval(t), 90; else prev + rnd * 15])`.
A cleared interval no longer fires. -/
def progressTick (t : Nat) (rnd : ℚ) (s : State) : State :=
  if t ∈ s.intervals then
    if s.uploadProgress ≥ 90 then
      { s with uploadProgress := 90, intervals := s.intervals.filter (fun i => i ≠ t) }
    else
      { s with uploadProgress := s.uploadProgress + rnd * 15 }
  else s

/-- The continuation of `handleUpload` after the `await` when the promise of
request `r` fulfils with response body `body` (`res.data`):
`setUploadProgress(100); setTimeout(() => ..., 500)`. -/
def uploadResolved (r : Request) (body : JSVal) (s : State) : State :=
  { s with
    uploadProgress := 100
    requests := s.requests.erase r
    timeouts := { id := s.nextTimerId, body := body } :: s.timeouts
    nextTimerId := s.nextTimerId + 1 }

/-- The body of the `setTimeout` callback:
`setData(res.data.data); setShowTable(true); setLoading(false)`.
The argument of `setData` is evaluated first, so a throwing property read
leaves every state cell untouched. -/
def timeoutCallback (body : JSVal) (s : State) : Except JSError State := do
  let d ← getProp body "data"
  pure { s with data := d, showTable := true, loading := false }

/-- The scheduled timeout `tm` fires after its delay: it leaves the timer
table and its callback runs; an exception of the callback is uncaught and
changes no state cell. -/
def delayElapsed (tm : Timeout) (s : State) : State :=
  let s1 := { s with timeouts := s.timeouts.filter (fun x => x.id ≠ tm.id) }
  match timeoutCallback tm.body s1 with
  | .ok s2 => s2
  | .error _ => s1

/-- The `catch` branch of `handleUpload`, entered when the promise of request
`r` rejects (transport error or non-2xx status):
`clearInterval(progressInterval); setError(...); setLoading(false); setUploadProgress(0)`. -/
def uploadRejected (r : Request) (s : State) : State :=
  { s with
    intervals := s.intervals.filter (fun i => i ≠ r.progressInterval)
    error := some uploadFailedMessage
    loading := false
    uploadProgress := 0
    requests := s.requests.erase r }

/-! ## The view -/

/-- The results card: the `in` property of its `<Slide>`, the item count shown
in the header and the badge, and the table rows. -/
structure Table where
  slideIn : Bool
  count : JSVal
  rows : List Row

/-- What `App` returns, restricted to the parts that depend on the state. -/
structure View where
  fileChip : Option String
  buttonDisabled : Bool
  buttonLabel : String
  progressBar : Option ℚ
  progressText : Option ℤ
  errorBanner : Option String
  table : Option Table

/-- The `disabled` property of the Extract Data button: `loading || !file`. -/
def buttonDisabled (s : State) : Bool :=
  s.loading || s.file.isNone

/-- The block `error && (...)`: the banner is rendered for a non-empty message. -/
def errorBanner (s : State) : Option String :=
  match s.error with
  | none => none
  | some msg => if msg ≠ "" then some msg else none

/-- The block `data.length > 0 && (<Slide in={showTable}> ... data.map(...) ...)`. -/
def renderTable (s : State) : Except JSError (Option Table) := do
  let len ← getProp s.data "length"
  let nonEmpty ← gtZero len
  if nonEmpty then
    let rows ← mapRows s.data
    pure (some { slideIn := s.showTable, count := len, rows := rows })
  else
    pure none

/-- The function component `App` as a function of its state; an exception
thrown while rendering is the error result. -/
def render (s : State) : Except JSError View := do
  let table ← renderTable s
  pure {
    fileChip := s.file.map (fun f => f.name)
    buttonDisabled := buttonDisabled s
    buttonLabel := if s.loading then "Processing..." else "Extract Data"
    progressBar := if s.loading then some s.uploadProgress else none
    progressText := if s.loading then some ⌊s.uploadProgress + 1 / 2⌋ else none
    errorBanner := errorBanner s
    table := table }

/-- The results table is on screen: the card is rendered and slid in. -/
def View.tableShown (v : View) : Bool :=
  match v.table with
  | some t => t.slideIn
  | none => false

/-! ## Events -/

/-- The events of the controller. The action control can be pressed only while
it is enabled; an interval fires only while it is live; a request settles only
while it is outstanding; a timeout fires only while it is scheduled. -/
inductive Step : State → State → Prop where
  | selectFile (s : State) (picked : Option File) :
      Step s (handleFileChange picked s)
  | press (s : State) (enabled : buttonDisabled s = false) :
      Step s (handleUpload s)
  | tick (s : State) (t : Nat) (rnd : ℚ) (live : t ∈ s.intervals)
      (lo : 0 ≤ rnd) (hi : rnd < 1) :
      Step s (progressTick t rnd s)
  | succeed (s : State) (r : Request) (body : JSVal) (outstanding : r ∈ s.requests) :
      Step s (uploadResolved r body s)
  | elapse (s : State) (tm : Timeout) (scheduled : tm ∈ s.timeouts) :
      Step s (delayElapsed tm s)
  | fail (s : State) (r : Request) (outstanding : r ∈ s.requests) :
      Step s (uploadRejected r s)

/-- The states reachable from a freshly mounted component. -/
inductive Reachable : State → Prop where
  | init : Reachable State.init
  | step (s s1 : State) (reach : Reachable s) (next : Step s s1) : Reachable s1

/-- The number of upload requests in flight. -/
def inFlight (s : State) : Nat :=
  s.requests.length

/-- The rows of the results table in a view; none when no table is rendered. -/
def View.rows (v : View) : List Row :=
  match v.table with
  | some t => t.rows
  | none => []

/-- One complete successful upload: the user picks `f`, presses the action
control, the request fulfils with `body` and the delay of the success path
elapses. -/
def successfulUpload (f : File) (body : JSVal) (s : State) : State :=
  let s1 := handleUpload (handleFileChange (some f) s)
  let s2 := uploadResolved { progressInterval := s.nextTimerId, file := f } body s1
  delayElapsed { id := s1.nextTimerId, body := body } s2

/-- A sample file handle. -/
def sampleFile : File := { name := "invoice.pdf" }

/-- A well-formed response body, `{"data": [{"title": "Widget"}]}`. -/
def sampleBody : JSVal := .obj [("data", .arr [.obj [("title", .str "Widget")]])]

/-- The invariant behind the serialisation of uploads: at most one request or
success-path timeout is pending, and while one is pending `loading` is set. -/
def Serialised (s : State) : Prop :=
  s.requests.length + s.timeouts.length ≤ 1 ∧
  (0 < s.requests.length + s.timeouts.length → s.loading = true)

/-- Successive firings of the interval callback of timer `t`, one for each
value of `Math.random()` in `rnds`, in order. -/
def ticks (t : Nat) (rnds : List ℚ) (s : State) : State :=
  rnds.foldl (fun st rnd => progressTick t rnd st) s

/-- The state right after a submission of `sampleFile` from a freshly mounted
component: progress 0, interval 1 live, one request outstanding. -/
def submitted : State :=
  handleUpload (handleFileChange (some sampleFile) State.init)

/-! ## Theorems -/

theorem renderRow_obj (props : List (String × JSVal)) (idx : Nat) :
    renderRow (.obj props) idx = .ok {
      key := idx
      title := orCell ((props.lookup "title").getD .undefined) "N/A"
      typeLabel := orCell ((props.lookup "type").getD .undefined) "Unknown"
      hsn := orCell ((props.lookup "section_2_transaction_hsn").getD .undefined) "-"
      gst := gstCell ((props.lookup "section_2_transaction_gst").getD .undefined)
      qty := orCell ((props.lookup "section_2_transaction_qty").getD .undefined) "-"
      rate := currencyCell ((props.lookup "section_2_transaction_rate").getD .undefined)
      mrp := currencyCell ((props.lookup "section_2_transaction_mrp").getD .undefined)
      page := orCell ((props.lookup "page_number").getD .undefined) "1"
      statusIcon := statusIcon ((props.lookup "status").getD .undefined)
      statusLabel := orCell ((props.lookup "status").getD .undefined) "pending"
      statusColor := statusColor ((props.lookup "status").getD .undefined) } :=
  rfl

theorem mapRowsFrom_objs (items : List (List (String × JSVal))) :
    ∀ k : Nat, ∃ rows, mapRowsFrom (items.map JSVal.obj) k = .ok rows ∧
      rows.length = items.length ∧
      ∀ (i : Nat) (props : List (String × JSVal)), items[i]? = some props →
        ∃ r, rows[i]? = some r ∧ renderRow (.obj props) (k + i) = .ok r := by
  induction items with
  | nil =>
      intro k
      exact ⟨[], rfl, rfl, by simp⟩
  | cons p rest ih =>
      intro k
      obtain ⟨rs, hrs, hlen, hget⟩ := ih (k + 1)
      obtain ⟨r, hr⟩ : ∃ r, renderRow (.obj p) k = .ok r := ⟨_, renderRow_obj p k⟩
      refine ⟨r :: rs, ?_, ?_, ?_⟩
      · simp only [List.map_cons, mapRowsFrom, hr, hrs]
      · simp [hlen]
      · intro i props hi
        cases i with
        | zero =>
            simp only [List.getElem?_cons_zero, Option.some.injEq] at hi
            subst hi
            exact ⟨r, by simp, by simpa using hr⟩
        | succ j =>
            simp only [List.getElem?_cons_succ] at hi
            obtain ⟨r1, h1, h2⟩ := hget j props hi
            refine ⟨r1, by simpa using h1, ?_⟩
            have hk : k + (j + 1) = k + 1 + j := by omega
            rw [hk]
            exact h2

theorem renderTable_arr_objs (s : State) (items : List (List (String × JSVal)))
    (hdata : s.data = .arr (items.map JSVal.obj)) :
    ∃ rows, mapRowsFrom (items.map JSVal.obj) 0 = .ok rows ∧
      renderTable s = .ok (if items.isEmpty then none else
        some { slideIn := s.showTable
               count := .num (.finite (items.length : ℚ))
               rows := rows }) := by
  obtain ⟨rows, hrows, -, -⟩ := mapRowsFrom_objs items 0
  refine ⟨rows, hrows, ?_⟩
  cases items with
  | nil => simp [renderTable, hdata, getProp, gtZero, bind, Except.bind, pure, Except.pure]
  | cons p rest =>
      have hpos : (0 : ℚ) < (rest.length : ℚ) + 1 := by positivity
      simp only [List.map_cons] at hrows
      simp [renderTable, hdata, getProp, gtZero, mapRows, hrows, hpos, bind, Except.bind,
        pure, Except.pure]

/-- C1: for every array of line items held as the result set, the view has
exactly one table row per item, in input order: the number of rows equals the
length of the array and the row at index `i` is the one the row callback
produces for the item at index `i` (with key `i`). -/
theorem C1_one_row_per_item_in_order (s : State) (items : List (List (String × JSVal))) :
    ∃ v, render { s with data := .arr (items.map JSVal.obj) } = .ok v ∧
      v.rows.length = items.length ∧
      ∀ (i : Nat) (props : List (String × JSVal)), items[i]? = some props →
        ∃ r, v.rows[i]? = some r ∧ renderRow (.obj props) i = .ok r := by
  obtain ⟨rows, hrows, hlen, hget⟩ := mapRowsFrom_objs items 0
  obtain ⟨rows1, hrows1, htable⟩ :=
    renderTable_arr_objs { s with data := .arr (items.map JSVal.obj) } items rfl
  have hsame : rows1 = rows := by
    rw [hrows] at hrows1
    exact (Except.ok.inj hrows1).symm
  subst hsame
  by_cases hnil : items = []
  · subst hnil
    refine ⟨_, by simp only [render, htable]; rfl, ?_, ?_⟩
    · simp [View.rows]
    · intro i props hi
      simp at hi
  · refine ⟨_, by simp only [render, htable]; rfl, ?_, ?_⟩
    · simp [View.rows, hnil, hlen]
    · intro i props hi
      obtain ⟨r, h1, h2⟩ := hget i props hi
      refine ⟨r, ?_, by simpa using h2⟩
      simpa [View.rows, hnil] using h1

theorem strictEqStr_iff (v : JSVal) (lit : String) :
    strictEqStr v lit = true ↔ v = .str lit := by
  cases v <;> simp [strictEqStr]

/-- C2: for every line item the status chip is a fixed three-way
classification of the `status` field: exactly "approved" gives the success
colour and the check icon, exactly "reviewing" gives the warning colour and the
upload icon, every other value (absent, `null`, non-strings, strings differing
in case or whitespace) gives the error colour and the error icon; the icon and
the colour, computed by two differently ordered conditionals, always stand for
the same category. -/
theorem C2_status_three_way (props : List (String × JSVal)) (idx : Nat) :
    ∃ r status, renderRow (.obj props) idx = .ok r ∧
      getProp (.obj props) "status" = .ok status ∧
      r.statusIcon.category = r.statusColor ∧
      (status = .str "approved" →
        r.statusColor = .success ∧ r.statusIcon = .CheckCircleIcon) ∧
      (status = .str "reviewing" →
        r.statusColor = .warning ∧ r.statusIcon = .CloudUploadIcon) ∧
      (status ≠ .str "approved" → status ≠ .str "reviewing" →
        r.statusColor = .error ∧ r.statusIcon = .ErrorIcon) ∧
      (statusColor .undefined = .error ∧ statusIcon .undefined = .ErrorIcon) ∧
      (statusColor .null = .error ∧ statusIcon .null = .ErrorIcon) ∧
      (statusColor (.str "Approved") = .error ∧ statusIcon (.str "Approved") = .ErrorIcon) ∧
      (statusColor (.str "reviewing ") = .error ∧
        statusIcon (.str "reviewing ") = .ErrorIcon) := by
  refine ⟨_, (props.lookup "status").getD .undefined, renderRow_obj props idx, rfl, ?_⟩
  generalize (props.lookup "status").getD .undefined = status
  have ha := strictEqStr_iff status "approved"
  have hr := strictEqStr_iff status "reviewing"
  refine ⟨?_, ?_, ?_, ?_, ⟨rfl, rfl⟩, ⟨rfl, rfl⟩, ⟨by decide, by decide⟩, ⟨by decide, by decide⟩⟩
  · simp only [statusIcon, statusColor]
    by_cases h1 : strictEqStr status "approved" = true
    · have h2 : strictEqStr status "reviewing" = false := by
        rw [ha.mp h1]; decide
      simp [h1, h2, Icon.category]
    · by_cases h2 : strictEqStr status "reviewing" = true
      · simp [h1, h2, Icon.category]
      · simp [h1, h2, Icon.category]
  · intro h
    subst h
    exact ⟨(by decide : statusColor (.str "approved") = .success),
      (by decide : statusIcon (.str "approved") = .CheckCircleIcon)⟩
  · intro h
    subst h
    exact ⟨(by decide : statusColor (.str "reviewing") = .warning),
      (by decide : statusIcon (.str "reviewing") = .CloudUploadIcon)⟩
  · intro h1 h2
    have e1 : strictEqStr status "approved" = false := by
      cases h : strictEqStr status "approved"
      · rfl
      · exact absurd (ha.mp h) h1
    have e2 : strictEqStr status "reviewing" = false := by
      cases h : strictEqStr status "reviewing"
      · rfl
      · exact absurd (hr.mp h) h2
    simp [statusIcon, statusColor, e1, e2]

/-- C3: in every state with no file selected, `handleUpload` sets the error
message to "Please select a PDF file to upload." and does nothing else: no
request is issued, no interval or timeout is started, and the file, loading
flag, progress, result set and table visibility are unchanged. -/
theorem C3_no_file_no_request (s : State) (hfile : s.file = none) :
    (handleUpload s).error = some "Please select a PDF file to upload." ∧
    (handleUpload s).requests = s.requests ∧
    (handleUpload s).intervals = s.intervals ∧
    (handleUpload s).timeouts = s.timeouts ∧
    (handleUpload s).nextTimerId = s.nextTimerId ∧
    (handleUpload s).loading = s.loading ∧
    (handleUpload s).uploadProgress = s.uploadProgress ∧
    (handleUpload s).data = s.data ∧
    (handleUpload s).showTable = s.showTable ∧
    (handleUpload s).file = s.file := by
  simp [handleUpload, hfile, noFileMessage]

theorem C3_no_file_no_request_witness :
    State.init.file = none ∧
    (handleUpload State.init).error = some "Please select a PDF file to upload." ∧
    (handleUpload State.init).requests = [] ∧
    (handleUpload State.init).intervals = [] ∧
    (handleUpload State.init).loading = false :=
  ⟨rfl, (C3_no_file_no_request State.init rfl).1, (C3_no_file_no_request State.init rfl).2.1,
    (C3_no_file_no_request State.init rfl).2.2.1,
    (C3_no_file_no_request State.init rfl).2.2.2.2.2.1⟩

theorem currencyCell_finite (q : ℚ) :
    currencyCell (.num (.finite q)) =
      if q = 0 then .val (.str "-") else .template "₹" (.num (.finite q)) "" := by
  by_cases h : q = 0 <;> simp [currencyCell, toBoolean, h]

theorem gstCell_finite (q : ℚ) :
    gstCell (.num (.finite q)) =
      if q = 0 then .val (.str "-") else .template "" (.num (.finite q)) "%" := by
  by_cases h : q = 0 <;> simp [gstCell, toBoolean, h]

/-- C10, as stated, fails: a line item whose rate, MRP and GST fields are
present with the numeric value 0 renders the dash placeholder in all three
cells, not the currency symbol (or the value and a percent sign). -/
theorem C10_zero_renders_dash :
    ∃ r, renderRow (.obj [("section_2_transaction_rate", .num (.finite 0)),
                          ("section_2_transaction_mrp", .num (.finite 0)),
                          ("section_2_transaction_gst", .num (.finite 0))]) 0 = .ok r ∧
      r.rate = .val (.str "-") ∧ r.rate ≠ .template "₹" (.num (.finite 0)) "" ∧
      r.mrp = .val (.str "-") ∧ r.mrp ≠ .template "₹" (.num (.finite 0)) "" ∧
      r.gst = .val (.str "-") ∧ r.gst ≠ .template "" (.num (.finite 0)) "%" := by
  refine ⟨_, renderRow_obj _ 0, ?_⟩
  have hr : currencyCell (.num (.finite 0)) = .val (.str "-") := by
    simp [currencyCell_finite]
  have hg : gstCell (.num (.finite 0)) = .val (.str "-") := by
    simp [gstCell_finite]
  have e1 : List.lookup "section_2_transaction_rate"
      [("section_2_transaction_rate", JSVal.num (.finite 0)),
       ("section_2_transaction_mrp", JSVal.num (.finite 0)),
       ("section_2_transaction_gst", JSVal.num (.finite 0))] = some (.num (.finite 0)) := by
    simp [List.lookup]
  have e2 : List.lookup "section_2_transaction_mrp"
      [("section_2_transaction_rate", JSVal.num (.finite 0)),
       ("section_2_transaction_mrp", JSVal.num (.finite 0)),
       ("section_2_transaction_gst", JSVal.num (.finite 0))] = some (.num (.finite 0)) := by
    simp [List.lookup]
  have e3 : List.lookup "section_2_transaction_gst"
      [("section_2_transaction_rate", JSVal.num (.finite 0)),
       ("section_2_transaction_mrp", JSVal.num (.finite 0)),
       ("section_2_transaction_gst", JSVal.num (.finite 0))] = some (.num (.finite 0)) := by
    simp [List.lookup]
  simp only [e1, e2, e3, Option.getD_some, hr, hg]
  simp

/-- C10, amended: for every line item, each of the HSN, GST, quantity, rate
and MRP cells renders the dash placeholder when its field is absent; a rate
(respectively MRP) present with a non-zero numeric value renders the currency
symbol followed by that value, and a GST present with a non-zero numeric value
renders the value followed by a percent sign; a rate, MRP or GST present with
the value 0 renders the dash placeholder. -/
theorem C10_numeric_cells (props : List (String × JSVal)) (idx : Nat) :
    ∃ r, renderRow (.obj props) idx = .ok r ∧
      (props.lookup "section_2_transaction_hsn" = none → r.hsn = .val (.str "-")) ∧
      (props.lookup "section_2_transaction_gst" = none → r.gst = .val (.str "-")) ∧
      (props.lookup "section_2_transaction_qty" = none → r.qty = .val (.str "-")) ∧
      (props.lookup "section_2_transaction_rate" = none → r.rate = .val (.str "-")) ∧
      (props.lookup "section_2_transaction_mrp" = none → r.mrp = .val (.str "-")) ∧
      (∀ q : ℚ, props.lookup "section_2_transaction_rate" = some (.num (.finite q)) →
        (q ≠ 0 → r.rate = .template "₹" (.num (.finite q)) "") ∧
        (q = 0 → r.rate = .val (.str "-"))) ∧
      (∀ q : ℚ, props.lookup "section_2_transaction_mrp" = some (.num (.finite q)) →
        (q ≠ 0 → r.mrp = .template "₹" (.num (.finite q)) "") ∧
        (q = 0 → r.mrp = .val (.str "-"))) ∧
      (∀ q : ℚ, props.lookup "section_2_transaction_gst" = some (.num (.finite q)) →
        (q ≠ 0 → r.gst = .template "" (.num (.finite q)) "%") ∧
        (q = 0 → r.gst = .val (.str "-"))) := by
  refine ⟨_, renderRow_obj props idx, ?_, ?_, ?_, ?_, ?_, ?_, ?_, ?_⟩
  · intro h; simp only [h]; rfl
  · intro h; simp only [h]; rfl
  · intro h; simp only [h]; rfl
  · intro h; simp only [h]; rfl
  · intro h; simp only [h]; rfl
  · intro q h
    simp only [h, Option.getD_some, currencyCell_finite]
    exact ⟨fun hq => by simp [hq], fun hq => by simp [hq]⟩
  · intro q h
    simp only [h, Option.getD_some, currencyCell_finite]
    exact ⟨fun hq => by simp [hq], fun hq => by simp [hq]⟩
  · intro q h
    simp only [h, Option.getD_some, gstCell_finite]
    exact ⟨fun hq => by simp [hq], fun hq => by simp [hq]⟩

theorem delayElapsed_of_data (s : State) (tm : Timeout) (d : JSVal)
    (hd : getProp tm.body "data" = .ok d) :
    delayElapsed tm s =
      { s with
        timeouts := s.timeouts.filter (fun x => x.id ≠ tm.id)
        data := d
        showTable := true
        loading := false } := by
  simp [delayElapsed, timeoutCallback, hd, bind, Except.bind, pure, Except.pure]

/-- C4: for a successful response whose body carries the data array `B`, the
success path sets the progress to 100 and schedules the delayed callback; when
that callback fires, in whatever state the component then is, the result set
becomes exactly `B`, the results are marked visible and loading is cleared. In
particular a complete successful upload started from any prior state (such as
one left by an earlier successful upload that returned `A`) ends with the
result set `B`, and repeating the same upload with the same response leaves
the same result set as the first time. -/
theorem C4_success_replaces_result_set (body : JSVal) (B : List JSVal)
    (hB : getProp body "data" = .ok (.arr B)) :
    (∀ (s : State) (r : Request),
      (uploadResolved r body s).uploadProgress = 100 ∧
      (uploadResolved r body s).timeouts = { id := s.nextTimerId, body := body } :: s.timeouts ∧
      (uploadResolved r body s).data = s.data ∧
      (uploadResolved r body s).loading = s.loading) ∧
    (∀ (s : State) (id : Nat),
      (delayElapsed { id := id, body := body } s).data = .arr B ∧
      (delayElapsed { id := id, body := body } s).showTable = true ∧
      (delayElapsed { id := id, body := body } s).loading = false) ∧
    (∀ (s : State) (f : File),
      (successfulUpload f body s).data = .arr B ∧
      (successfulUpload f body s).showTable = true ∧
      (successfulUpload f body s).loading = false) ∧
    (∀ (s : State) (f : File) (bodyA : JSVal),
      (successfulUpload f body (successfulUpload f bodyA s)).data = .arr B) ∧
    (∀ (s : State) (f : File),
      (successfulUpload f body (successfulUpload f body s)).data =
        (successfulUpload f body s).data) := by
  have key : ∀ (s : State) (id : Nat),
      (delayElapsed { id := id, body := body } s).data = .arr B ∧
      (delayElapsed { id := id, body := body } s).showTable = true ∧
      (delayElapsed { id := id, body := body } s).loading = false := by
    intro s id
    rw [delayElapsed_of_data s { id := id, body := body } (.arr B) hB]
    exact ⟨rfl, rfl, rfl⟩
  have run : ∀ (s : State) (f : File),
      (successfulUpload f body s).data = .arr B ∧
      (successfulUpload f body s).showTable = true ∧
      (successfulUpload f body s).loading = false := by
    intro s f
    exact key _ _
  refine ⟨?_, key, run, ?_, ?_⟩
  · intro s r
    exact ⟨rfl, rfl, rfl, rfl⟩
  · intro s f bodyA
    exact (run _ f).1
  · intro s f
    rw [(run _ f).1, (run s f).1]

theorem C4_success_replaces_result_set_witness :
    getProp (.obj [("data", .arr [.obj [("title", .str "Widget")]])]) "data" =
      .ok (.arr [.obj [("title", .str "Widget")]]) ∧
    (successfulUpload { name := "invoice.pdf" }
      (.obj [("data", .arr [.obj [("title", .str "Widget")]])])
      (successfulUpload { name := "invoice.pdf" }
        (.obj [("data", .arr [.obj [("title", .str "Widget")]])]) State.init)).data =
      .arr [.obj [("title", .str "Widget")]] :=
  ⟨by simp [getProp, List.lookup],
   ((C4_success_replaces_result_set (.obj [("data", .arr [.obj [("title", .str "Widget")]])])
      [.obj [("title", .str "Widget")]] (by simp [getProp, List.lookup])).2.2.1
        _ { name := "invoice.pdf" }).1⟩

/-- C5: a submission with a selected file starts a progress interval and
issues one request holding that interval's id. When the request rejects, in
whatever state the component then is, the failure handler cancels that
interval (it is no longer live and a late firing changes nothing), sets the
error message to "Upload failed. Please try again.", resets the progress to 0
and clears the loading flag; it removes the settled request and issues no new
one, and it schedules no timeout. -/
theorem C5_failure_handler (s : State) (f : File) (hfile : s.file = some f) :
    (handleUpload s).requests =
      { progressInterval := s.nextTimerId, file := f } :: s.requests ∧
    s.nextTimerId ∈ (handleUpload s).intervals ∧
    (∀ (s1 : State),
      s.nextTimerId ∉
        (uploadRejected { progressInterval := s.nextTimerId, file := f } s1).intervals ∧
      (uploadRejected { progressInterval := s.nextTimerId, file := f } s1).error =
        some "Upload failed. Please try again." ∧
      (uploadRejected { progressInterval := s.nextTimerId, file := f } s1).uploadProgress = 0 ∧
      (uploadRejected { progressInterval := s.nextTimerId, file := f } s1).loading = false ∧
      (uploadRejected { progressInterval := s.nextTimerId, file := f } s1).requests =
        s1.requests.erase { progressInterval := s.nextTimerId, file := f } ∧
      (uploadRejected { progressInterval := s.nextTimerId, file := f } s1).timeouts =
        s1.timeouts ∧
      (∀ rnd : ℚ,
        progressTick s.nextTimerId rnd
            (uploadRejected { progressInterval := s.nextTimerId, file := f } s1) =
          uploadRejected { progressInterval := s.nextTimerId, file := f } s1)) ∧
    uploadRejected { progressInterval := s.nextTimerId, file := f } (handleUpload s) =
      { s with
        intervals := s.intervals.filter (fun i => i ≠ s.nextTimerId)
        nextTimerId := s.nextTimerId + 1
        error := some "Upload failed. Please try again."
        loading := false
        uploadProgress := 0 } := by
  refine ⟨by simp [handleUpload, hfile], by simp [handleUpload, hfile], ?_, ?_⟩
  · intro s1
    have hnot : s.nextTimerId ∉
        (uploadRejected { progressInterval := s.nextTimerId, file := f } s1).intervals := by
      simp [uploadRejected]
    refine ⟨hnot, rfl, rfl, rfl, rfl, rfl, ?_⟩
    intro rnd
    simp only [progressTick, if_neg hnot]
  · simp [uploadRejected, handleUpload, hfile, uploadFailedMessage]

theorem C5_failure_handler_witness :
    (handleFileChange (some { name := "invoice.pdf" }) State.init).file =
      some { name := "invoice.pdf" } ∧
    (uploadRejected { progressInterval := 1, file := { name := "invoice.pdf" } }
      (handleUpload (handleFileChange (some { name := "invoice.pdf" }) State.init))).error =
        some "Upload failed. Please try again." ∧
    (uploadRejected { progressInterval := 1, file := { name := "invoice.pdf" } }
      (handleUpload (handleFileChange (some { name := "invoice.pdf" }) State.init))).loading =
        false ∧
    (uploadRejected { progressInterval := 1, file := { name := "invoice.pdf" } }
      (handleUpload
        (handleFileChange (some { name := "invoice.pdf" }) State.init))).uploadProgress = 0 :=
  ⟨rfl,
   ((C5_failure_handler (handleFileChange (some { name := "invoice.pdf" }) State.init)
      { name := "invoice.pdf" } rfl).2.2.1
        (handleUpload (handleFileChange (some { name := "invoice.pdf" }) State.init))).2.1,
   ((C5_failure_handler (handleFileChange (some { name := "invoice.pdf" }) State.init)
      { name := "invoice.pdf" } rfl).2.2.1
        (handleUpload (handleFileChange (some { name := "invoice.pdf" }) State.init))).2.2.2.1,
   ((C5_failure_handler (handleFileChange (some { name := "invoice.pdf" }) State.init)
      { name := "invoice.pdf" } rfl).2.2.1
        (handleUpload (handleFileChange (some { name := "invoice.pdf" }) State.init))).2.2.1⟩

theorem delayElapsed_cases (tm : Timeout) (s : State) :
    (delayElapsed tm s).requests = s.requests ∧
    (delayElapsed tm s).timeouts = s.timeouts.filter (fun x => x.id ≠ tm.id) ∧
    ((delayElapsed tm s).loading = false ∨ (delayElapsed tm s).loading = s.loading) ∧
    (delayElapsed tm s).file = s.file := by
  unfold delayElapsed
  cases h : getProp tm.body "data" with
  | error e => simp [timeoutCallback, h, bind, Except.bind]
  | ok d => simp [timeoutCallback, h, bind, Except.bind, pure, Except.pure]

theorem serialised_step (s s1 : State) (inv : Serialised s) (next : Step s s1) :
    Serialised s1 := by
  obtain ⟨hle, hload⟩ := inv
  cases next with
  | selectFile picked => exact ⟨hle, hload⟩
  | press enabled =>
      have hl : s.loading = false := by
        simp only [buttonDisabled, Bool.or_eq_false_iff] at enabled
        exact enabled.1
      have hzero : s.requests.length + s.timeouts.length = 0 := by
        by_contra hne
        have := hload (Nat.pos_of_ne_zero hne)
        rw [hl] at this
        exact Bool.noConfusion this
      have hf : s.file.isNone = false := by
        simp only [buttonDisabled, Bool.or_eq_false_iff] at enabled
        exact enabled.2
      cases hfile : s.file with
      | none => simp [hfile] at hf
      | some f =>
          simp only [Serialised, handleUpload, hfile, List.length_cons]
          exact ⟨by omega, fun _ => trivial⟩
  | tick t rnd live lo hi =>
      unfold progressTick
      simp only [live, if_true]
      split
      · exact ⟨hle, hload⟩
      · exact ⟨hle, hload⟩
  | succeed r body outstanding =>
      have hpos : 0 < s.requests.length := List.length_pos_of_mem outstanding
      have herase : (s.requests.erase r).length = s.requests.length - 1 :=
        List.length_erase_of_mem outstanding
      simp only [Serialised, uploadResolved, List.length_cons, herase]
      exact ⟨by omega, fun _ => hload (by omega)⟩
  | elapse tm scheduled =>
      obtain ⟨hreq, htm, hl, -⟩ := delayElapsed_cases tm s
      have hpos : 0 < s.timeouts.length := List.length_pos_of_mem scheduled
      have hone : s.timeouts.length = 1 := by omega
      have hreq0 : s.requests.length = 0 := by omega
      have hnil : s.timeouts.filter (fun x => x.id ≠ tm.id) = [] := by
        match hts : s.timeouts, hone, scheduled with
        | [x], _, hmem =>
            have hx : tm = x := by simpa using hmem
            subst hx
            simp
      simp only [Serialised, hreq, htm, hnil, hreq0, List.length_nil]
      exact ⟨by omega, fun h => absurd h (by omega)⟩
  | fail r outstanding =>
      have hpos : 0 < s.requests.length := List.length_pos_of_mem outstanding
      have herase : (s.requests.erase r).length = s.requests.length - 1 :=
        List.length_erase_of_mem outstanding
      simp only [Serialised, uploadRejected, herase]
      exact ⟨by omega, fun h => absurd h (by omega)⟩

theorem serialised_reachable (s : State) (reach : Reachable s) : Serialised s := by
  induction reach with
  | init => exact ⟨by simp [State.init], fun h => absurd h (by simp [State.init])⟩
  | step s0 s1 _ next ih => exact serialised_step s0 s1 ih next

/-- C9: in every state reachable through the controller's events (select a
file, press the enabled action control, timer tick, request succeeds,
post-success delay elapses, request fails): the action control is disabled
exactly when no file is chosen or loading is set; loading is set whenever a
request is outstanding or its success-path delay is still pending; at most one
upload request is in flight, and none is in flight while the action control is
enabled. -/
theorem C9_one_upload_in_flight (s : State) (reach : Reachable s) :
    (buttonDisabled s = true ↔ s.file = none ∨ s.loading = true) ∧
    (s.requests ≠ [] ∨ s.timeouts ≠ [] → s.loading = true) ∧
    inFlight s ≤ 1 ∧
    (buttonDisabled s = false → inFlight s = 0) := by
  obtain ⟨hle, hload⟩ := serialised_reachable s reach
  have hpending : s.requests ≠ [] ∨ s.timeouts ≠ [] → s.loading = true := by
    intro h
    apply hload
    rcases h with h | h
    · have := List.length_pos.mpr h
      omega
    · have := List.length_pos.mpr h
      omega
  refine ⟨?_, hpending, ?_, ?_⟩
  · cases hfile : s.file <;> cases hl : s.loading <;> simp [buttonDisabled, hfile, hl]
  · unfold inFlight
    omega
  · intro henabled
    unfold inFlight
    by_contra hne
    have hl : s.loading = true := hload (by omega)
    simp [buttonDisabled, hl] at henabled

theorem C9_one_upload_in_flight_witness :
    Reachable (handleUpload (handleFileChange (some sampleFile) State.init)) ∧
    inFlight (handleUpload (handleFileChange (some sampleFile) State.init)) = 1 ∧
    inFlight (handleUpload (handleFileChange (some sampleFile) State.init)) ≤ 1 ∧
    (handleUpload (handleFileChange (some sampleFile) State.init)).loading = true :=
  have reach : Reachable (handleUpload (handleFileChange (some sampleFile) State.init)) :=
    Reachable.step _ _
      (Reachable.step _ _ Reachable.init (Step.selectFile State.init (some sampleFile)))
      (Step.press _ rfl)
  ⟨reach, rfl, (C9_one_upload_in_flight _ reach).2.2.1,
    (C9_one_upload_in_flight _ reach).2.1 (Or.inl (List.cons_ne_nil _ _))⟩

theorem renderTable_congr (s1 s2 : State) (hdata : s1.data = s2.data)
    (hshow : s1.showTable = s2.showTable) : renderTable s1 = renderTable s2 := by
  simp only [renderTable, hdata, hshow]

theorem reachable_successfulUpload (f : File) (body : JSVal) :
    Reachable (successfulUpload f body State.init) :=
  Reachable.step _ _
    (Reachable.step _ _
      (Reachable.step _ _
        (Reachable.step _ _ Reachable.init (Step.selectFile State.init (some f)))
        (Step.press _ rfl))
      (Step.succeed _ { progressInterval := 1, file := f } body (List.mem_cons_self _ _)))
    (Step.elapse _ { id := 2, body := body } (List.mem_cons_self _ _))

theorem sampleBody_data :
    getProp sampleBody "data" = .ok (.arr ([[("title", JSVal.str "Widget")]].map JSVal.obj)) := by
  simp [sampleBody, getProp, List.lookup]

/-- C6, as stated, fails: after a successful upload that returned one line
item (a reachable state with the action control enabled), a second submission
whose network call rejects leaves a view that shows the error banner and also
still shows the results table of the earlier upload. -/
theorem C6_stale_table_after_failure :
    Reachable (successfulUpload sampleFile sampleBody State.init) ∧
    buttonDisabled (successfulUpload sampleFile sampleBody State.init) = false ∧
    ∃ v, render (uploadRejected { progressInterval := 3, file := sampleFile }
          (handleUpload (successfulUpload sampleFile sampleBody State.init))) = .ok v ∧
      v.errorBanner = some "Upload failed. Please try again." ∧
      v.tableShown = true ∧ v.rows.length = 1 := by
  have hs : successfulUpload sampleFile sampleBody State.init =
      { State.init with
        file := some sampleFile
        data := .arr ([[("title", JSVal.str "Widget")]].map JSVal.obj)
        showTable := true
        intervals := [1]
        nextTimerId := 3
        uploadProgress := 100 } := by
    unfold successfulUpload
    rw [delayElapsed_of_data _ _ _ sampleBody_data]
    simp [uploadResolved, handleUpload, handleFileChange, State.init]
  refine ⟨reachable_successfulUpload sampleFile sampleBody, ?_, ?_⟩
  · rw [hs]; rfl
  · obtain ⟨rows, hrows, htable⟩ := renderTable_arr_objs
      (uploadRejected { progressInterval := 3, file := sampleFile }
        (handleUpload (successfulUpload sampleFile sampleBody State.init)))
      [[("title", JSVal.str "Widget")]] (by rw [hs]; rfl)
    have hlen : rows.length = 1 := by
      obtain ⟨rows1, h1, hl, -⟩ := mapRowsFrom_objs [[("title", JSVal.str "Widget")]] 0
      rw [hrows] at h1
      rw [Except.ok.inj h1]
      simpa using hl
    have hshow : (uploadRejected { progressInterval := 3, file := sampleFile }
        (handleUpload (successfulUpload sampleFile sampleBody State.init))).showTable = true := by
      rw [hs]; rfl
    refine ⟨_, by simp only [render, htable]; rfl, ?_, ?_, ?_⟩
    · simp [errorBanner, uploadRejected, uploadFailedMessage]
    · simp [View.tableShown, hshow]
    · simp [View.rows, hlen]

/-- C6, amended: when the network call rejects, in whatever state the
component then is, the view shows the error banner with the generic failure
message, loading is cleared (no progress indicator) and the progress is 0; the
result set and the table visibility are left exactly as they were, and neither
the submission itself nor a progress tick changes them, so the results card is
the one rendered before the submission. No results table is shown when the
result set was empty before (as on a first submission). -/
theorem C6_failure_view (s : State) (r : Request) :
    errorBanner (uploadRejected r s) = some "Upload failed. Please try again." ∧
    (uploadRejected r s).loading = false ∧
    (uploadRejected r s).uploadProgress = 0 ∧
    (uploadRejected r s).data = s.data ∧
    (uploadRejected r s).showTable = s.showTable ∧
    renderTable (uploadRejected r s) = renderTable s ∧
    renderTable (handleUpload s) = renderTable s ∧
    (∀ (t : Nat) (rnd : ℚ), renderTable (progressTick t rnd s) = renderTable s) ∧
    (∀ v, render (uploadRejected r s) = .ok v →
      v.errorBanner = some "Upload failed. Please try again." ∧ v.progressBar = none) ∧
    (s.data = .arr [] →
      ∃ v, render (uploadRejected r s) = .ok v ∧ v.tableShown = false ∧
        v.errorBanner = some "Upload failed. Please try again." ∧ v.progressBar = none) := by
  have hbanner : errorBanner (uploadRejected r s) = some "Upload failed. Please try again." := by
    simp [errorBanner, uploadRejected, uploadFailedMessage]
  have hview : ∀ v, render (uploadRejected r s) = .ok v →
      v.errorBanner = some "Upload failed. Please try again." ∧ v.progressBar = none := by
    intro v hv
    unfold render at hv
    cases ht : renderTable (uploadRejected r s) with
    | error e => simp [ht, bind, Except.bind] at hv
    | ok tbl =>
        simp only [ht, bind, Except.bind, pure, Except.pure, Except.ok.injEq] at hv
        subst hv
        exact ⟨hbanner, by simp [uploadRejected]⟩
  refine ⟨hbanner, rfl, rfl, rfl, rfl, renderTable_congr _ _ rfl rfl, ?_, ?_, hview, ?_⟩
  · apply renderTable_congr
    · unfold handleUpload; cases s.file <;> rfl
    · unfold handleUpload; cases s.file <;> rfl
  · intro t rnd
    apply renderTable_congr
    · unfold progressTick; split_ifs <;> rfl
    · unfold progressTick; split_ifs <;> rfl
  · intro hdata
    obtain ⟨rows, -, htable⟩ := renderTable_arr_objs (uploadRejected r s) []
      (by simpa [uploadRejected] using hdata)
    have hr : ∃ v, render (uploadRejected r s) = .ok v ∧ v.table = none :=
      ⟨_, by simp only [render, htable]; rfl, rfl⟩
    obtain ⟨v, hv, hnone⟩ := hr
    exact ⟨v, hv, by simp [View.tableShown, hnone], hview v hv⟩

/-- C7 fails on the code: a success-status response whose body is malformed is
neither accepted as a result set nor treated as a failed upload. With the body
`{}` (no `data` field) the delayed callback stores `undefined` as the result
set and clears loading, and rendering that state throws a `TypeError` on
`data.length`; with the body `{"data": null}` it stores `null`, with the same
outcome. With the body `null` the callback itself throws before any state
update: no request or timeout is left pending, loading stays set and the
action control stays disabled. All three states are reachable. -/
theorem C7_malformed_body_breaks_view :
    (Reachable (successfulUpload sampleFile (.obj []) State.init) ∧
      (successfulUpload sampleFile (.obj []) State.init).loading = false ∧
      (successfulUpload sampleFile (.obj []) State.init).data = .undefined ∧
      render (successfulUpload sampleFile (.obj []) State.init) = .error .typeError) ∧
    (Reachable (successfulUpload sampleFile (.obj [("data", .null)]) State.init) ∧
      (successfulUpload sampleFile (.obj [("data", .null)]) State.init).loading = false ∧
      (successfulUpload sampleFile (.obj [("data", .null)]) State.init).data = .null ∧
      render (successfulUpload sampleFile (.obj [("data", .null)]) State.init) =
        .error .typeError) ∧
    (Reachable (successfulUpload sampleFile .null State.init) ∧
      (successfulUpload sampleFile .null State.init).loading = true ∧
      (successfulUpload sampleFile .null State.init).requests = [] ∧
      (successfulUpload sampleFile .null State.init).timeouts = [] ∧
      buttonDisabled (successfulUpload sampleFile .null State.init) = true) := by
  have h1 : getProp (.obj []) "data" = .ok .undefined := rfl
  have h2 : getProp (.obj [("data", .null)]) "data" = .ok .null := by
    simp [getProp, List.lookup]
  refine ⟨⟨reachable_successfulUpload _ _, ?_, ?_, ?_⟩,
    ⟨reachable_successfulUpload _ _, ?_, ?_, ?_⟩, reachable_successfulUpload _ _, ?_⟩
  · unfold successfulUpload
    rw [delayElapsed_of_data _ _ _ h1]
  · unfold successfulUpload
    rw [delayElapsed_of_data _ _ _ h1]
  · unfold successfulUpload
    rw [delayElapsed_of_data _ _ _ h1]
    rfl
  · unfold successfulUpload
    rw [delayElapsed_of_data _ _ _ h2]
  · unfold successfulUpload
    rw [delayElapsed_of_data _ _ _ h2]
  · unfold successfulUpload
    rw [delayElapsed_of_data _ _ _ h2]
    rfl
  · simp [successfulUpload, delayElapsed, timeoutCallback, getProp, bind, Except.bind,
      uploadResolved, handleUpload, handleFileChange, State.init, buttonDisabled]

/-- C8 fails on the code for the success path: the success continuation does
not cancel the progress interval. After a submission whose request succeeds
before the animation has reached 90, the interval of that submission is still
live while the progress is 100 and the post-success delay is pending, and its
next firing sets the progress back to 90. The failure handler, by contrast,
does cancel the interval. -/
theorem C8_success_leaves_interval_live :
    (uploadResolved { progressInterval := 1, file := sampleFile } sampleBody
      (handleUpload (handleFileChange (some sampleFile) State.init))).uploadProgress = 100 ∧
    (uploadResolved { progressInterval := 1, file := sampleFile } sampleBody
      (handleUpload (handleFileChange (some sampleFile) State.init))).loading = true ∧
    1 ∈ (uploadResolved { progressInterval := 1, file := sampleFile } sampleBody
      (handleUpload (handleFileChange (some sampleFile) State.init))).intervals ∧
    Step
      (uploadResolved { progressInterval := 1, file := sampleFile } sampleBody
        (handleUpload (handleFileChange (some sampleFile) State.init)))
      (progressTick 1 (1 / 2)
        (uploadResolved { progressInterval := 1, file := sampleFile } sampleBody
          (handleUpload (handleFileChange (some sampleFile) State.init)))) ∧
    (progressTick 1 (1 / 2)
      (uploadResolved { progressInterval := 1, file := sampleFile } sampleBody
        (handleUpload (handleFileChange (some sampleFile) State.init)))).uploadProgress = 90 ∧
    1 ∉ (uploadRejected { progressInterval := 1, file := sampleFile }
      (handleUpload (handleFileChange (some sampleFile) State.init))).intervals := by
  have hmem : 1 ∈ (uploadResolved { progressInterval := 1, file := sampleFile } sampleBody
      (handleUpload (handleFileChange (some sampleFile) State.init))).intervals := by
    simp [uploadResolved, handleUpload, handleFileChange, State.init]
  refine ⟨rfl, rfl, hmem, Step.tick _ 1 (1 / 2) hmem (by norm_num) (by norm_num), ?_, ?_⟩
  · simp only [progressTick, if_pos hmem]
    have h100 : (uploadResolved { progressInterval := 1, file := sampleFile } sampleBody
        (handleUpload (handleFileChange (some sampleFile) State.init))).uploadProgress = 100 := rfl
    rw [h100]
    norm_num
  · simp [uploadRejected, handleUpload, handleFileChange, State.init]

theorem orCell_nonempty_str (t placeholder : String) (ht : t ≠ "") :
    orCell (.str t) placeholder = .val (.str t) := by
  simp [orCell, jsOr, toBoolean, ht]

theorem orCell_nonzero_num (q : ℚ) (placeholder : String) (hq : q ≠ 0) :
    orCell (.num (.finite q)) placeholder = .val (.num (.finite q)) := by
  simp [orCell, jsOr, toBoolean, hq]

/-- C11: for every line item, the title cell is "N/A" when `title` is absent
and the title itself when it is a non-empty string; the type chip label is
"Unknown" when `type` is absent and the type itself when it is a non-empty
string; the page chip label is "1" when `page_number` is absent and the item's
own page number when it is a positive integer. The item with title "Widget"
and page number 2 renders title "Widget" and page 2, and the item with only
the status "reviewing" renders title "N/A", page "1" and the warning badge. -/
theorem C11_text_cell_placeholders (props : List (String × JSVal)) (idx : Nat) :
    (∃ r, renderRow (.obj props) idx = .ok r ∧
      (props.lookup "title" = none → r.title = .val (.str "N/A")) ∧
      (∀ t : String, t ≠ "" → props.lookup "title" = some (.str t) →
        r.title = .val (.str t)) ∧
      (props.lookup "type" = none → r.typeLabel = .val (.str "Unknown")) ∧
      (∀ t : String, t ≠ "" → props.lookup "type" = some (.str t) →
        r.typeLabel = .val (.str t)) ∧
      (props.lookup "page_number" = none → r.page = .val (.str "1")) ∧
      (∀ n : Nat, 0 < n → props.lookup "page_number" = some (.num (.finite (n : ℚ))) →
        r.page = .val (.num (.finite (n : ℚ))))) ∧
    (∃ r, renderRow (.obj [("title", .str "Widget"), ("page_number", .num (.finite 2))]) idx
        = .ok r ∧
      r.title = .val (.str "Widget") ∧ r.page = .val (.num (.finite 2))) ∧
    (∃ r, renderRow (.obj [("status", .str "reviewing")]) idx = .ok r ∧
      r.title = .val (.str "N/A") ∧ r.page = .val (.str "1") ∧
      r.statusColor = .warning) := by
  refine ⟨⟨_, renderRow_obj props idx, ?_, ?_, ?_, ?_, ?_, ?_⟩,
    ⟨_, renderRow_obj _ idx, ?_, ?_⟩, ⟨_, renderRow_obj _ idx, ?_, ?_, ?_⟩⟩
  · intro h; simp only [h]; rfl
  · intro t ht h
    simp only [h, Option.getD_some]
    exact orCell_nonempty_str t "N/A" ht
  · intro h; simp only [h]; rfl
  · intro t ht h
    simp only [h, Option.getD_some]
    exact orCell_nonempty_str t "Unknown" ht
  · intro h; simp only [h]; rfl
  · intro n hn h
    simp only [h, Option.getD_some]
    exact orCell_nonzero_num (n : ℚ) "1" (by exact_mod_cast Nat.pos_iff_ne_zero.mp hn)
  · have e : List.lookup "title"
        [("title", JSVal.str "Widget"), ("page_number", JSVal.num (.finite 2))] =
        some (.str "Widget") := by simp [List.lookup]
    simp only [e, Option.getD_some]
    exact orCell_nonempty_str "Widget" "N/A" (by decide)
  · have e : List.lookup "page_number"
        [("title", JSVal.str "Widget"), ("page_number", JSVal.num (.finite 2))] =
        some (.num (.finite 2)) := by simp [List.lookup]
    simp only [e, Option.getD_some]
    exact orCell_nonzero_num 2 "1" (by norm_num)
  · have e : List.lookup "title" [("status", JSVal.str "reviewing")] = none := by
      simp [List.lookup]
    simp only [e]; rfl
  · have e : List.lookup "page_number" [("status", JSVal.str "reviewing")] = none := by
      simp [List.lookup]
    simp only [e]; rfl
  · have e : List.lookup "status" [("status", JSVal.str "reviewing")] =
        some (.str "reviewing") := by simp [List.lookup]
    simp only [e, Option.getD_some]
    decide

theorem progressTick_below (t : Nat) (rnd : ℚ) (s : State) (live : t ∈ s.intervals)
    (hlt : s.uploadProgress < 90) :
    progressTick t rnd s = { s with uploadProgress := s.uploadProgress + rnd * 15 } := by
  simp [progressTick, live, not_le.mpr hlt]

theorem progressTick_reached (t : Nat) (rnd : ℚ) (s : State) (live : t ∈ s.intervals)
    (hge : 90 ≤ s.uploadProgress) :
    progressTick t rnd s =
      { s with uploadProgress := 90, intervals := s.intervals.filter (fun i => i ≠ t) } := by
  simp [progressTick, live, hge]

theorem progressTick_range (t : Nat) (rnd : ℚ) (s : State) (lo : 0 ≤ rnd) (hi : rnd < 1)
    (h0 : 0 ≤ s.uploadProgress) (h105 : s.uploadProgress < 105) :
    0 ≤ (progressTick t rnd s).uploadProgress ∧ (progressTick t rnd s).uploadProgress < 105 := by
  unfold progressTick
  split_ifs with hlive hge
  · exact ⟨by norm_num, by norm_num⟩
  · have hlt : s.uploadProgress < 90 := not_le.mp hge
    constructor
    · show 0 ≤ s.uploadProgress + rnd * 15
      nlinarith
    · show s.uploadProgress + rnd * 15 < 105
      nlinarith
  · exact ⟨h0, h105⟩

theorem reachable_ticks (t : Nat) (rnds : List ℚ) :
    ∀ s : State, Reachable s → (∀ rnd ∈ rnds, 0 ≤ rnd ∧ rnd < 1) →
      Reachable (ticks t rnds s) := by
  induction rnds with
  | nil => intro s reach _; exact reach
  | cons rnd rest ih =>
      intro s reach hr
      have hrnd := hr rnd (List.mem_cons_self _ _)
      have hnext : Reachable (progressTick t rnd s) := by
        by_cases live : t ∈ s.intervals
        · exact Reachable.step _ _ reach (Step.tick s t rnd live hrnd.1 hrnd.2)
        · simpa [progressTick, live] using reach
      exact ih _ hnext (fun x hx => hr x (List.mem_cons_of_mem _ hx))

theorem reachable_submitted : Reachable submitted :=
  Reachable.step _ _
    (Reachable.step _ _ Reachable.init (Step.selectFile State.init (some sampleFile)))
    (Step.press _ rfl)

theorem ticks_seven_eighths :
    ticks 1 [7 / 8, 7 / 8, 7 / 8, 7 / 8, 7 / 8, 7 / 8, 7 / 8] submitted =
      { submitted with uploadProgress := 735 / 8 } := by
  have h0 : submitted = { submitted with uploadProgress := 0 } := rfl
  have live : ∀ p : ℚ, 1 ∈ ({ submitted with uploadProgress := p } : State).intervals := by
    intro p
    simp [submitted, handleUpload, handleFileChange, State.init]
  have step : ∀ p : ℚ, p < 90 →
      progressTick 1 (7 / 8) { submitted with uploadProgress := p } =
        { submitted with uploadProgress := p + 7 / 8 * 15 } := by
    intro p hp
    rw [progressTick_below 1 (7 / 8) _ (live p) hp]
  rw [h0]
  simp only [ticks, List.foldl]
  rw [step 0 (by norm_num), step _ (by norm_num), step _ (by norm_num), step _ (by norm_num),
    step _ (by norm_num), step _ (by norm_num), step _ (by norm_num)]
  norm_num

/-- C12 fails on the code: the interval updater only tests the previous value
against 90 and adds the random increment unclamped. Starting from progress 0
at submission, seven firings with `Math.random()` equal to 0.875 (increment
13.125 each) are all enabled and give 91.875, above the ceiling of 90, with
the interval still live; the eighth firing then lowers the progress to 90, so
the value also decreases from one tick to the next. -/
theorem C12_animation_overshoots_ceiling :
    submitted.uploadProgress = 0 ∧
    Reachable (ticks 1 [7 / 8, 7 / 8, 7 / 8, 7 / 8, 7 / 8, 7 / 8, 7 / 8] submitted) ∧
    (ticks 1 [7 / 8, 7 / 8, 7 / 8, 7 / 8, 7 / 8, 7 / 8, 7 / 8] submitted).uploadProgress =
      735 / 8 ∧
    90 < (ticks 1 [7 / 8, 7 / 8, 7 / 8, 7 / 8, 7 / 8, 7 / 8, 7 / 8] submitted).uploadProgress ∧
    1 ∈ (ticks 1 [7 / 8, 7 / 8, 7 / 8, 7 / 8, 7 / 8, 7 / 8, 7 / 8] submitted).intervals ∧
    (progressTick 1 (7 / 8)
      (ticks 1 [7 / 8, 7 / 8, 7 / 8, 7 / 8, 7 / 8, 7 / 8, 7 / 8] submitted)).uploadProgress =
        90 ∧
    (progressTick 1 (7 / 8)
      (ticks 1 [7 / 8, 7 / 8, 7 / 8, 7 / 8, 7 / 8, 7 / 8, 7 / 8] submitted)).uploadProgress <
      (ticks 1 [7 / 8, 7 / 8, 7 / 8, 7 / 8, 7 / 8, 7 / 8, 7 / 8] submitted).uploadProgress := by
  have hreach : Reachable
      (ticks 1 [7 / 8, 7 / 8, 7 / 8, 7 / 8, 7 / 8, 7 / 8, 7 / 8] submitted) := by
    apply reachable_ticks 1 _ submitted reachable_submitted
    intro rnd hrnd
    simp only [List.mem_cons, List.mem_singleton, List.not_mem_nil, or_false, or_self] at hrnd
    subst hrnd
    exact ⟨by norm_num, by norm_num⟩
  have hlive : 1 ∈ ({ submitted with uploadProgress := 735 / 8 } : State).intervals := by
    simp [submitted, handleUpload, handleFileChange, State.init]
  have hlast : (progressTick 1 (7 / 8)
      ({ submitted with uploadProgress := 735 / 8 } : State)).uploadProgress = 90 := by
    rw [progressTick_reached 1 (7 / 8) _ hlive (by norm_num)]
  refine ⟨rfl, hreach, ?_, ?_, ?_, ?_, ?_⟩
  · rw [ticks_seven_eighths]
  · rw [ticks_seven_eighths]
    norm_num
  · rw [ticks_seven_eighths]
    exact hlive
  · rw [ticks_seven_eighths]
    exact hlast
  · rw [ticks_seven_eighths, hlast]
    norm_num

end InvoiceUI
